import Mathlib

/-!
Verification of the `ionic ssl generate` command
(`packages/ionic/src/commands/ssl/generate.ts`).

The command is a linear orchestration: resolve options against defaults,
ensure the destination directories exist, prompt before overwriting
existing key/cert files, delete the files marked for overwrite, write a
temporary OpenSSL configuration file, invoke `openssl` once, and report.

The embedding below models the command as a pure function from a `World`
(project, initial filesystem oracle, operator answers, temp-file path,
subprocess outcome) and an option map to a trace of effects plus an
outcome.  Filesystem existence is threaded explicitly through the steps
that consult or change it.  External library functions that the command
merely calls through (Node `path.resolve` / `path.dirname`, the
`chalk` terminal styling and `prettyPath` display shortening) are modelled
minimally: styling and display shortening are identities, and the path
functions keep the join/absolute-reset behaviour that the command relies
on (segment normalisation is not modelled; no claim depends on it).
-/

namespace IonicSSL

/-- Characters treated as whitespace by `String.prototype.trim` (the ASCII
ones that can occur here). -/
def isWSChar (ch : Char) : Bool := ch = ' ' || ch = '\n' || ch = '\t' || ch = '\r'

/-- Trim leading and trailing whitespace from a character list. -/
def trimChars (l : List Char) : List Char :=
  ((l.dropWhile isWSChar).reverse.dropWhile isWSChar).reverse

/-- Model of the JavaScript `trim()` applied by `writeConfig` to the
template literal. -/
def jsTrim (s : String) : String := ⟨trimChars s.data⟩

/-- Split a character list at every occurrence of `c` (accumulator form). -/
def splitOnCharAux (c : Char) : List Char → List Char → List (List Char)
  | [], acc => [acc.reverse]
  | x :: xs, acc =>
    if x = c then acc.reverse :: splitOnCharAux c xs []
    else splitOnCharAux c xs (x :: acc)

/-- Split a character list at every occurrence of `c`. -/
def splitOnChar (c : Char) (l : List Char) : List (List Char) := splitOnCharAux c l []

/-- Split a character list at the first occurrence of `c`, if any
(accumulator form). -/
def splitFirstAux (c : Char) : List Char → List Char → Option (List Char × List Char)
  | [], _ => none
  | x :: xs, acc =>
    if x = c then some (acc.reverse, xs)
    else splitFirstAux c xs (x :: acc)

/-- Split a character list at the first occurrence of `c`, if any. -/
def splitFirst (c : Char) (l : List Char) : Option (List Char × List Char) :=
  splitFirstAux c l []

/-- Join strings with `/` separators, as `Array.prototype.join` does. -/
def joinSlash : List String → String
  | [] => ""
  | [x] => x
  | x :: xs => x ++ "/" ++ joinSlash xs

/-- The lines of a string (split at every newline). -/
def linesOf (s : String) : List String :=
  (splitOnChar '\n' s.data).map (fun l => (⟨l⟩ : String))

/-- Whether a config line opens a section (starts with a bracket). -/
def isSectionHeader (l : String) : Bool :=
  match l.data with
  | ch :: _ => ch = '['
  | [] => false

/-- The lines of the named section of an INI-style config text: everything
after the header line up to the next section header. -/
def sectionLines (sec s : String) : List String :=
  (((linesOf s).dropWhile (fun l => l ≠ "[" ++ sec ++ "]")).drop 1).takeWhile
    (fun l => !isSectionHeader l)

/-- Read one `key = value` assignment off a config line (whitespace around
the key and the value is insignificant in the INI format the config uses;
the source aligns the values with extra spaces). -/
def iniAssign (l : String) : Option (String × String) :=
  match splitFirst '=' l.data with
  | some (k, v) => some ((⟨trimChars k⟩ : String), (⟨trimChars v⟩ : String))
  | none => none

/-- All assignments of the named section of a config text. -/
def sectionAssigns (sec s : String) : List (String × String) :=
  (sectionLines sec s).filterMap iniAssign

/-- Whether a path is absolute (starts with a slash). -/
def isAbsolute (p : String) : Bool := p.data.head? == some '/'

/-- Model of one-argument Node `path.resolve` against a current working
directory: an absolute path is kept, a relative one is joined onto `cwd`. -/
def pathResolve1 (cwd p : String) : String :=
  if isAbsolute p then p else cwd ++ "/" ++ p

/-- Model of two-argument Node `path.resolve`: paths are processed left to
right, a later absolute path discarding what came before. -/
def pathResolve2 (cwd a b : String) : String := pathResolve1 (pathResolve1 cwd a) b

/-- Model of Node `path.dirname` for the resolved paths the command uses:
drop the last `/`-separated component. -/
def dirname (p : String) : String :=
  let parts := (splitOnChar '/' p.data).map (fun l => (⟨l⟩ : String))
  if parts.length ≤ 1 then "."
  else if parts.dropLast.all (fun s => s = "") then "/"
  else joinSlash parts.dropLast

/-- `DEFAULT_BITS` from the source. -/
def DEFAULT_BITS : String := "2048"

/-- `DEFAULT_COUNTRY_NAME` from the source. -/
def DEFAULT_COUNTRY_NAME : String := "US"

/-- `DEFAULT_STATE_OR_PROVINCE_NAME` from the source. -/
def DEFAULT_STATE_OR_PROVINCE_NAME : String := "Wisconsin"

/-- `DEFAULT_LOCALITY_NAME` from the source. -/
def DEFAULT_LOCALITY_NAME : String := "Madison"

/-- `DEFAULT_ORGANIZATION_NAME` from the source. -/
def DEFAULT_ORGANIZATION_NAME : String := "Ionic"

/-- `DEFAULT_COMMON_NAME` from the source. -/
def DEFAULT_COMMON_NAME : String := "localhost"

/-- `DEFAULT_KEY_FILE` from the source. -/
def DEFAULT_KEY_FILE : String := ".ionic/ssl/key.pem"

/-- `DEFAULT_CERT_FILE` from the source. -/
def DEFAULT_CERT_FILE : String := ".ionic/ssl/cert.pem"

/-- The `OpenSSLConfig` record of the source: key size plus the five
subject fields, all kept as text. -/
structure OpenSSLConfig where
  bits : String
  countryName : String
  stateOrProvinceName : String
  localityName : String
  organizationName : String
  commonName : String
deriving DecidableEq, Repr

/-- One observable effect of the command, in program order:
`fsMkdirp`, log messages, a confirmation prompt being shown, `fsUnlink`,
`fsWriteFile`, the `shell.run` subprocess invocation, and the final log
calls. -/
inductive Effect where
  | mkdirp (p : String) (mode : Nat)
  | logMsg (m : String)
  | prompt (message : String)
  | unlink (p : String)
  | writeFile (p : String) (contents : String)
  | shellRun (cmd : String) (args : List String)
  | logNl
  | logRawmsg (m : String)
  | logOk (m : String)
deriving DecidableEq, Repr

/-- How the command ends: normally, or by throwing a `FatalException`
carrying a message. -/
inductive Outcome where
  | success
  | fatal (msg : String)
deriving DecidableEq, Repr

/-- Whether an outcome is a fatal error. -/
def Outcome.isFatal : Outcome → Bool
  | .success => false
  | .fatal _ => true

/-- The effect trace of a command execution together with its outcome. -/
structure RunResult where
  trace : List Effect
  outcome : Outcome

/-- The command-line options handed to `run`: a map from option name to the
supplied textual value, `none` when the option key is absent. -/
def OptMap : Type := String → Option String

/-- The ambient inputs of one invocation: the process working directory,
`this.project` (its directory when recognised), the initial `pathExists`
oracle, the operator answer to the overwrite prompt for a given path, the
fresh path produced by `tmpfilepath`, and whether the `openssl` subprocess
exits successfully. -/
structure World where
  cwd : String
  project : Option String
  fs0 : String → Bool
  confirm : String → Bool
  tmpPath : String
  shellOk : Bool

/-- JavaScript truthiness of an option value: an absent option and the
empty string are falsy (the source tests `options[k] ? ... : ...`). -/
def truthy : Option String → Bool
  | none => false
  | some s => !(s == "")

/-- The text of a supplied option (`String(options[k])`; the options are
already textual, so the conversion is the identity). -/
def optStr (o : OptMap) (k : String) : String := (o k).getD ""

/-- Truthiness of the `boolean | undefined` result of `checkExistingFile`
as tested by `if (overwriteKeyPath)`. -/
def optTruthy : Option Bool → Bool
  | none => false
  | some b => b

/-- Override one key of an option map. -/
def setOpt (o : OptMap) (k : String) (v : Option String) : OptMap :=
  fun k2 => if k2 = k then v else o k2

/-- `getDefaultKeyPath` from the source:
`path.resolve(this.project ? this.project.directory : '', DEFAULT_KEY_FILE)`. -/
def getDefaultKeyPath (cwd : String) (project : Option String) : String :=
  pathResolve2 cwd (match project with | some d => d | none => "") DEFAULT_KEY_FILE

/-- `getDefaultCertPath` from the source:
`path.resolve(this.project ? this.project.directory : '', DEFAULT_CERT_FILE)`. -/
def getDefaultCertPath (cwd : String) (project : Option String) : String :=
  pathResolve2 cwd (match project with | some d => d | none => "") DEFAULT_CERT_FILE

/-- The key destination path as resolved at the top of `run`:
`path.resolve(options['key-path'] ? String(options['key-path']) : this.getDefaultKeyPath())`. -/
def resolvedKeyPath (w : World) (o : OptMap) : String :=
  pathResolve1 w.cwd
    (if truthy (o "key-path") then optStr o "key-path" else getDefaultKeyPath w.cwd w.project)

/-- The cert destination path as resolved at the top of `run`. -/
def resolvedCertPath (w : World) (o : OptMap) : String :=
  pathResolve1 w.cwd
    (if truthy (o "cert-path") then optStr o "cert-path" else getDefaultCertPath w.cwd w.project)

/-- `bits` as resolved in `run`. -/
def resolvedBits (o : OptMap) : String :=
  if truthy (o "bits") then optStr o "bits" else DEFAULT_BITS

/-- `countryName` as resolved in `run`. -/
def resolvedCountryName (o : OptMap) : String :=
  if truthy (o "country-name") then optStr o "country-name" else DEFAULT_COUNTRY_NAME

/-- `stateOrProvinceName` as resolved in `run`. -/
def resolvedStateOrProvinceName (o : OptMap) : String :=
  if truthy (o "state-or-province-name") then optStr o "state-or-province-name"
  else DEFAULT_STATE_OR_PROVINCE_NAME

/-- `localityName` as resolved in `run`. -/
def resolvedLocalityName (o : OptMap) : String :=
  if truthy (o "locality-name") then optStr o "locality-name" else DEFAULT_LOCALITY_NAME

/-- `organizationName` as resolved in `run`. -/
def resolvedOrganizationName (o : OptMap) : String :=
  if truthy (o "organization-name") then optStr o "organization-name"
  else DEFAULT_ORGANIZATION_NAME

/-- `commonName` as resolved in `run`. -/
def resolvedCommonName (o : OptMap) : String :=
  if truthy (o "common-name") then optStr o "common-name" else DEFAULT_COMMON_NAME

/-- The `cnf` record assembled in `run` from the resolved values. -/
def resolvedCnf (o : OptMap) : OpenSSLConfig :=
  ⟨resolvedBits o, resolvedCountryName o, resolvedStateOrProvinceName o,
   resolvedLocalityName o, resolvedOrganizationName o, resolvedCommonName o⟩

/-- Association-list lookup mirroring `Map.prototype.get`. -/
def mapGet : List (String × String) → String → Option String
  | [], _ => none
  | (k, v) :: rest, key => if key = k then some v else mapGet rest key

/-- The `subjNames` map of `formatSubj`, in insertion order. -/
def subjNames : List (String × String) :=
  [("countryName", "C"), ("stateOrProvinceName", "ST"), ("localityName", "L"),
   ("organizationName", "O"), ("commonName", "CN")]

/-- `lodash.toPairs` on an `OpenSSLConfig` object literal: its key/value
pairs in insertion order (`bits` first, then the five subject fields). -/
def toPairs (cnf : OpenSSLConfig) : List (String × String) :=
  [("bits", cnf.bits), ("countryName", cnf.countryName),
   ("stateOrProvinceName", cnf.stateOrProvinceName),
   ("localityName", cnf.localityName),
   ("organizationName", cnf.organizationName),
   ("commonName", cnf.commonName)]

/-- `formatSubj` from the source: keep the pairs named in `subjNames`, map
each to `<short>=<value>`, join with `/` and prepend `/`. -/
def formatSubj (cnf : OpenSSLConfig) : String :=
  "/" ++ joinSlash
    (((toPairs cnf).filter (fun kv => (mapGet subjNames kv.1).isSome)).map
      (fun kv => (mapGet subjNames kv.1).getD "undefined" ++ "=" ++ kv.2))

/-- The template literal of `writeConfig`, before `trim()`: it opens and
closes with a newline and aligns the `=` signs with spaces. -/
def configTemplate (c : OpenSSLConfig) : String :=
  "\n[req]\ndefault_bits       = " ++ c.bits ++
  "\ndistinguished_name = req_distinguished_name\n\n[req_distinguished_name]\ncountryName                = " ++ c.countryName ++
  "\nstateOrProvinceName        = " ++ c.stateOrProvinceName ++
  "\nlocalityName               = " ++ c.localityName ++
  "\norganizationName           = " ++ c.organizationName ++
  "\ncommonName                 = " ++ c.commonName ++
  "\n\n[SAN]\nsubjectAltName=DNS:" ++ c.commonName ++ "\n"

/-- The text `writeConfig` writes to the temporary file: the template,
trimmed. -/
def writeConfigText (c : OpenSSLConfig) : String := jsTrim (configTemplate c)

/-- The message of the overwrite confirmation prompt in
`checkExistingFile` (terminal styling and display-path shortening are
modelled as identities). -/
def promptMessage (p : String) : String := "Key " ++ p ++ " exists. Overwrite?"

/-- `checkExistingFile` from the source: consult `pathExists`; when the
file exists, show the confirmation prompt and either return `true` or
throw a `FatalException`; when it does not exist, return `undefined`
without prompting.  The result is the emitted trace paired with the
returned value or the thrown message. -/
def checkExistingFile (st : String → Bool) (confirm : String → Bool) (p : String) :
    List Effect × Except String (Option Bool) :=
  if st p then
    if confirm p then
      ([Effect.prompt (promptMessage p)], Except.ok (some true))
    else
      ([Effect.prompt (promptMessage p)], Except.error ("Not overwriting " ++ p ++ "."))
  else
    ([], Except.ok none)

/-- `ensureDirectory` from the source: when `pathExists` is false, call
`fsMkdirp(p, 0o700)` (recursive creation) and log a message naming the
directory; otherwise do nothing.  Returns the emitted trace and the
updated existence oracle. -/
def ensureDirectory (st : String → Bool) (p : String) :
    List Effect × (String → Bool) :=
  if st p then ([], st)
  else
    ([Effect.mkdirp p 0o700, Effect.logMsg ("Created " ++ p ++ " directory for you.")],
     fun q => if q = p then true else st q)

/-- The argument list handed to `this.env.shell.run('openssl', ...)`. -/
def opensslArgs (cnf : OpenSSLConfig) (cnfPath keyPath certPath : String) : List String :=
  ["req", "-x509", "-newkey", "rsa:" ++ cnf.bits, "-nodes", "-subj", formatSubj cnf,
   "-reqexts", "SAN", "-extensions", "SAN", "-config", cnfPath, "-days", "365",
   "-keyout", keyPath, "-out", certPath]

/-- `run` from the source, as a trace/outcome function.  The steps appear
in source order: the project guard, option resolution, the two
`ensureDirectory` calls, the two `checkExistingFile` calls, the two
conditional `fsUnlink` calls, `writeConfig`, the `openssl` invocation and
the final log calls.  The message of a failed subprocess comes from the
shell layer and is modelled as a fixed text. -/
def run (w : World) (o : OptMap) : RunResult :=
  if w.project = none then
    ⟨[], Outcome.fatal "Cannot run ionic ssl generate outside a project directory."⟩
  else
    let keyPath := resolvedKeyPath w o
    let keyPathDir := dirname keyPath
    let certPath := resolvedCertPath w o
    let certPathDir := dirname certPath
    let cnf := resolvedCnf o
    let e1 := ensureDirectory w.fs0 keyPathDir
    let e2 := ensureDirectory e1.2 certPathDir
    let pre := e1.1 ++ e2.1
    let ck := checkExistingFile e2.2 w.confirm keyPath
    match ck.2 with
    | Except.error m => ⟨pre ++ ck.1, Outcome.fatal m⟩
    | Except.ok overwriteKey =>
      let cc := checkExistingFile e2.2 w.confirm certPath
      match cc.2 with
      | Except.error m => ⟨pre ++ ck.1 ++ cc.1, Outcome.fatal m⟩
      | Except.ok overwriteCert =>
        let trU := (if optTruthy overwriteKey then [Effect.unlink keyPath] else []) ++
                   (if optTruthy overwriteCert then [Effect.unlink certPath] else [])
        let trW := [Effect.writeFile w.tmpPath (writeConfigText cnf)]
        let trS := [Effect.shellRun "openssl" (opensslArgs cnf w.tmpPath keyPath certPath)]
        if w.shellOk then
          ⟨pre ++ ck.1 ++ cc.1 ++ trU ++ trW ++ trS ++
             [Effect.logNl,
              Effect.logRawmsg ("Key:  " ++ keyPath ++ "\n" ++ "Cert: " ++ certPath ++ "\n\n"),
              Effect.logOk "Generated key & certificate!"],
           Outcome.success⟩
        else
          ⟨pre ++ ck.1 ++ cc.1 ++ trU ++ trW ++ trS,
           Outcome.fatal "openssl exited with a nonzero exit code."⟩

/-- Modelled from the spec: `checkForOpenSSL`, awaited by `preRun`, lives
in `./base`, which is not among the sources here.  Per the spec
precondition, an invocation outside a recognised project fails with no
filesystem or subprocess side effects, so the pre-run check is modelled as
emitting no effects. -/
def preRunTrace (_w : World) : List Effect := []

/-- The whole command execution: the `preRun` hook followed by `run`. -/
def command (w : World) (o : OptMap) : RunResult :=
  let r := run w o
  ⟨preRunTrace w ++ r.trace, r.outcome⟩

/-- Whether an effect is an `fsUnlink`. -/
def isUnlinkE : Effect → Bool
  | .unlink _ => true
  | _ => false

/-- Whether an effect is an `fsWriteFile`. -/
def isWriteE : Effect → Bool
  | .writeFile _ _ => true
  | _ => false

/-- Whether an effect is a subprocess invocation. -/
def isShellRunE : Effect → Bool
  | .shellRun _ _ => true
  | _ => false

/-- Whether an effect deletes, rewrites or could rewrite (via the
subprocess) one of the two given files. -/
def touchesFiles (k c : String) : Effect → Bool
  | .unlink p => p = k || p = c
  | .writeFile p _ => p = k || p = c
  | .shellRun _ _ => true
  | _ => false

/-- The suffix of a trace strictly after its first `fsWriteFile` effect
(empty when no write occurs). -/
def afterFirstWrite (tr : List Effect) : List Effect :=
  (tr.dropWhile (fun e => !isWriteE e)).drop 1

/-- A concrete world for witnesses: both default destination files exist
already and the operator declines every prompt. -/
def wDecline : World :=
  ⟨"/cwd", some "/proj",
   fun p => p == "/proj/.ionic/ssl/key.pem" || p == "/proj/.ionic/ssl/cert.pem",
   fun _ => false, "/tmp/ionic-ssl-cnf", true⟩

/-- A concrete world for witnesses: no destination file exists and the
operator confirms every prompt. -/
def wFresh : World :=
  ⟨"/cwd", some "/proj", fun _ => false, fun _ => true, "/tmp/ionic-ssl-cnf", true⟩

/-- The empty option map. -/
def noOpts : OptMap := fun _ => none

theorem strData_append (a b : String) : (a ++ b).data = a.data ++ b.data := by
  cases a; cases b; rfl

theorem strExt {a b : String} (h : a.data = b.data) : a = b := by
  cases a; cases b; exact congrArg String.mk h

theorem isAbsolute_append (a b : String) (h : isAbsolute a = true) :
    isAbsolute (a ++ b) = true := by
  cases a with
  | mk d =>
    cases d with
    | nil => simp [isAbsolute] at h
    | cons x xs =>
      cases b with
      | mk d2 =>
        simp [isAbsolute] at h
        show ((⟨x :: (xs ++ d2)⟩ : String).data.head? == some '/') = true
        simp [h]

theorem pathResolve1_abs (cwd p : String) (h : isAbsolute cwd = true) :
    isAbsolute (pathResolve1 cwd p) = true := by
  unfold pathResolve1
  split
  · assumption
  · exact isAbsolute_append _ _ (isAbsolute_append _ _ h)

theorem pathResolve1_of_abs (cwd p : String) (h : isAbsolute p = true) :
    pathResolve1 cwd p = p := by
  simp [pathResolve1, h]

theorem ensure_preserves (st : String → Bool) (p q : String) (h : st q = true) :
    (ensureDirectory st p).2 q = true := by
  unfold ensureDirectory
  split
  · exact h
  · simp [h]

theorem ensure_any_unlink (st : String → Bool) (p : String) :
    (ensureDirectory st p).1.any isUnlinkE = false := by
  unfold ensureDirectory
  split <;> simp [isUnlinkE]

theorem ensure_all_clean (st : String → Bool) (p k c : String) :
    (ensureDirectory st p).1.all (fun e => !touchesFiles k c e) = true := by
  unfold ensureDirectory
  split <;> simp [touchesFiles]

theorem ensure_mem_shape (st : String → Bool) (p : String) :
    ∀ e ∈ (ensureDirectory st p).1,
      e = Effect.mkdirp p 448 ∨
      e = Effect.logMsg ("Created " ++ p ++ " directory for you.") := by
  unfold ensureDirectory
  split <;> simp

theorem ensure_filter_shell (st : String → Bool) (p : String) :
    (ensureDirectory st p).1.filter isShellRunE = [] := by
  unfold ensureDirectory
  split <;> simp [isShellRunE]

theorem ensure_all_nonwrite (st : String → Bool) (p : String) :
    (ensureDirectory st p).1.all (fun e => !isWriteE e) = true := by
  unfold ensureDirectory
  split <;> simp [isWriteE]

theorem ensure_unlink_not_mem (st : String → Bool) (p q : String) :
    Effect.unlink q ∉ (ensureDirectory st p).1 := by
  unfold ensureDirectory
  split <;> simp

theorem dropWhile_append_all {α : Type} (p : α → Bool) (l r : List α)
    (h : l.all p = true) : (l ++ r).dropWhile p = r.dropWhile p := by
  induction l with
  | nil => simp
  | cons x xs ih =>
    simp only [List.all_cons, Bool.and_eq_true] at h
    simp [List.dropWhile, h.1, ih h.2]

theorem dropWhile_nonwrite_ensure (st : String → Bool) (p : String) (r : List Effect) :
    ((ensureDirectory st p).1 ++ r).dropWhile (fun e => !isWriteE e) =
      r.dropWhile (fun e => !isWriteE e) :=
  dropWhile_append_all _ _ _ (ensure_all_nonwrite st p)

theorem isWriteE_prompt (m : String) : isWriteE (Effect.prompt m) = false := rfl

theorem isWriteE_unlink (p : String) : isWriteE (Effect.unlink p) = false := rfl

theorem isWriteE_write (p c : String) : isWriteE (Effect.writeFile p c) = true := rfl

theorem isUnlinkE_shell (c : String) (a : List String) :
    isUnlinkE (Effect.shellRun c a) = false := rfl

theorem isUnlinkE_logNl : isUnlinkE Effect.logNl = false := rfl

theorem isUnlinkE_logRawmsg (m : String) : isUnlinkE (Effect.logRawmsg m) = false := rfl

theorem isUnlinkE_logOk (m : String) : isUnlinkE (Effect.logOk m) = false := rfl

theorem isUnlinkE_prompt (m : String) : isUnlinkE (Effect.prompt m) = false := rfl

/-- C2: outside a recognised project the command fails at once with the
fatal user-facing message and an empty effect trace: nothing on the
filesystem is touched and no subprocess is invoked. -/
theorem c2_outside_project_fatal (w : World) (o : OptMap) (h : w.project = none) :
    (command w o).outcome =
      Outcome.fatal "Cannot run ionic ssl generate outside a project directory." ∧
    (command w o).trace = [] := by
  simp [command, run, preRunTrace, h]

/-- Witness for C2 at a concrete world with no recognised project. -/
theorem c2_outside_project_fatal_witness :
    (⟨"/cwd", none, fun _ => false, fun _ => true, "/tmp/t", true⟩ : World).project = none ∧
    ((command ⟨"/cwd", none, fun _ => false, fun _ => true, "/tmp/t", true⟩
        (fun _ => none)).outcome =
      Outcome.fatal "Cannot run ionic ssl generate outside a project directory." ∧
    (command ⟨"/cwd", none, fun _ => false, fun _ => true, "/tmp/t", true⟩
        (fun _ => none)).trace = []) :=
  ⟨rfl, c2_outside_project_fatal _ _ rfl⟩

/-- C4: for arbitrary text values of the six fields the rendered subject
string is exactly `/C=<country>/ST=<state>/L=<locality>/O=<organization>/CN=<commonName>`:
that ordering, those five fields, and the bits field excluded. -/
theorem c4_formatSubj_shape (b c s l o cn : String) :
    formatSubj ⟨b, c, s, l, o, cn⟩ =
      "/C=" ++ c ++ "/ST=" ++ s ++ "/L=" ++ l ++ "/O=" ++ o ++ "/CN=" ++ cn := by
  apply strExt
  simp [formatSubj, toPairs, subjNames, mapGet, joinSlash, strData_append]

/-- C9: for each of the eight options, a supplied empty-string value is
treated exactly as an absent option, because the source tests presence by
truthiness; the resolved value is then the documented default
(`DEFAULT_BITS` is `2048`, and the paths fall back to the project default
paths). -/
theorem c9_falsy_option_defaults (w : World) (o : OptMap) :
    (resolvedBits (setOpt o "bits" (some "")) = resolvedBits (setOpt o "bits" none) ∧
      resolvedBits (setOpt o "bits" (some "")) = DEFAULT_BITS) ∧
    (resolvedCountryName (setOpt o "country-name" (some "")) =
        resolvedCountryName (setOpt o "country-name" none) ∧
      resolvedCountryName (setOpt o "country-name" (some "")) = DEFAULT_COUNTRY_NAME) ∧
    (resolvedStateOrProvinceName (setOpt o "state-or-province-name" (some "")) =
        resolvedStateOrProvinceName (setOpt o "state-or-province-name" none) ∧
      resolvedStateOrProvinceName (setOpt o "state-or-province-name" (some "")) =
        DEFAULT_STATE_OR_PROVINCE_NAME) ∧
    (resolvedLocalityName (setOpt o "locality-name" (some "")) =
        resolvedLocalityName (setOpt o "locality-name" none) ∧
      resolvedLocalityName (setOpt o "locality-name" (some "")) = DEFAULT_LOCALITY_NAME) ∧
    (resolvedOrganizationName (setOpt o "organization-name" (some "")) =
        resolvedOrganizationName (setOpt o "organization-name" none) ∧
      resolvedOrganizationName (setOpt o "organization-name" (some "")) =
        DEFAULT_ORGANIZATION_NAME) ∧
    (resolvedCommonName (setOpt o "common-name" (some "")) =
        resolvedCommonName (setOpt o "common-name" none) ∧
      resolvedCommonName (setOpt o "common-name" (some "")) = DEFAULT_COMMON_NAME) ∧
    (resolvedKeyPath w (setOpt o "key-path" (some "")) =
        resolvedKeyPath w (setOpt o "key-path" none) ∧
      resolvedKeyPath w (setOpt o "key-path" (some "")) =
        pathResolve1 w.cwd (getDefaultKeyPath w.cwd w.project)) ∧
    (resolvedCertPath w (setOpt o "cert-path" (some "")) =
        resolvedCertPath w (setOpt o "cert-path" none) ∧
      resolvedCertPath w (setOpt o "cert-path" (some "")) =
        pathResolve1 w.cwd (getDefaultCertPath w.cwd w.project)) := by
  simp [resolvedBits, resolvedCountryName, resolvedStateOrProvinceName,
    resolvedLocalityName, resolvedOrganizationName, resolvedCommonName,
    resolvedKeyPath, resolvedCertPath, setOpt, truthy]

/-- C10: the overwrite prompt message always starts with the word `Key`,
also when the checked file is the certificate file; `checkExistingFile`
returns `true` on confirmation, returns `undefined` without a prompt when
the file is absent, throws a fatal exception on refusal, and never
returns `false`. -/
theorem c10_checkExistingFile_contract (st : String → Bool) (confirm : String → Bool)
    (p : String) :
    (st p = true →
      (checkExistingFile st confirm p).1 =
        [Effect.prompt ("Key " ++ p ++ " exists. Overwrite?")]) ∧
    (st p = true → confirm p = true →
      (checkExistingFile st confirm p).2 = Except.ok (some true)) ∧
    (st p = false → checkExistingFile st confirm p = ([], Except.ok none)) ∧
    (st p = true → confirm p = false →
      (checkExistingFile st confirm p).2 = Except.error ("Not overwriting " ++ p ++ ".")) ∧
    (checkExistingFile st confirm p).2 ≠ Except.ok (some false) := by
  unfold checkExistingFile promptMessage
  by_cases h1 : st p <;> by_cases h2 : confirm p <;> simp [h1, h2]

/-- Witness for C10: the cert file exists and the operator declines; the
prompt message still says `Key`, and the call throws. -/
theorem c10_checkExistingFile_contract_witness :
    ((fun q => q == "/a/cert.pem") : String → Bool) "/a/cert.pem" = true ∧
    ((fun _ => false) : String → Bool) "/a/cert.pem" = false ∧
    (checkExistingFile (fun q => q == "/a/cert.pem") (fun _ => false) "/a/cert.pem").1 =
      [Effect.prompt "Key /a/cert.pem exists. Overwrite?"] ∧
    (checkExistingFile (fun q => q == "/a/cert.pem") (fun _ => false) "/a/cert.pem").2 =
      Except.error "Not overwriting /a/cert.pem." ∧
    (checkExistingFile (fun q => q == "/a/cert.pem") (fun _ => false) "/a/cert.pem").2 ≠
      Except.ok (some false) :=
  ⟨rfl, rfl,
   (c10_checkExistingFile_contract (fun q => q == "/a/cert.pem") (fun _ => false)
      "/a/cert.pem").1 rfl,
   (c10_checkExistingFile_contract (fun q => q == "/a/cert.pem") (fun _ => false)
      "/a/cert.pem").2.2.2.1 rfl rfl,
   (c10_checkExistingFile_contract (fun q => q == "/a/cert.pem") (fun _ => false)
      "/a/cert.pem").2.2.2.2⟩

/-- C5: for bits 4096 and subject DE / Bavaria / Munich / Acme /
example.test, the text written to the temporary config file has a `[req]`
section assigning `default_bits = 4096`, a `[req_distinguished_name]`
section assigning the five subject fields their values verbatim, and a
`[SAN]` section containing `subjectAltName=DNS:example.test` (the source
aligns the `=` signs of the first two sections with extra spaces, so the
assignments are read whitespace-insensitively; the exact aligned
`default_bits` line is also asserted verbatim). -/
theorem c5_config_contents :
    ("default_bits", "4096") ∈
      sectionAssigns "req"
        (writeConfigText ⟨"4096", "DE", "Bavaria", "Munich", "Acme", "example.test"⟩) ∧
    "default_bits       = 4096" ∈
      sectionLines "req"
        (writeConfigText ⟨"4096", "DE", "Bavaria", "Munich", "Acme", "example.test"⟩) ∧
    ("countryName", "DE") ∈
      sectionAssigns "req_distinguished_name"
        (writeConfigText ⟨"4096", "DE", "Bavaria", "Munich", "Acme", "example.test"⟩) ∧
    ("stateOrProvinceName", "Bavaria") ∈
      sectionAssigns "req_distinguished_name"
        (writeConfigText ⟨"4096", "DE", "Bavaria", "Munich", "Acme", "example.test"⟩) ∧
    ("localityName", "Munich") ∈
      sectionAssigns "req_distinguished_name"
        (writeConfigText ⟨"4096", "DE", "Bavaria", "Munich", "Acme", "example.test"⟩) ∧
    ("organizationName", "Acme") ∈
      sectionAssigns "req_distinguished_name"
        (writeConfigText ⟨"4096", "DE", "Bavaria", "Munich", "Acme", "example.test"⟩) ∧
    ("commonName", "example.test") ∈
      sectionAssigns "req_distinguished_name"
        (writeConfigText ⟨"4096", "DE", "Bavaria", "Munich", "Acme", "example.test"⟩) ∧
    "subjectAltName=DNS:example.test" ∈
      sectionLines "SAN"
        (writeConfigText ⟨"4096", "DE", "Bavaria", "Munich", "Acme", "example.test"⟩) := by
  decide

/-- C6: each of the six subject/key-size values resolves to the supplied
option when present (truthy), else to its documented default; the key and
cert paths resolve to the supplied option made absolute when present, else
to the absolute path of `.ionic/ssl/key.pem` / `.ionic/ssl/cert.pem` under
the project root. -/
theorem c6_option_resolution (w : World) (o : OptMap) (proj : String)
    (hcwd : isAbsolute w.cwd = true) (hproj : w.project = some proj) :
    (∀ v, o "bits" = some v → v ≠ "" → resolvedBits o = v) ∧
    (o "bits" = none → resolvedBits o = "2048") ∧
    (∀ v, o "country-name" = some v → v ≠ "" → resolvedCountryName o = v) ∧
    (o "country-name" = none → resolvedCountryName o = "US") ∧
    (∀ v, o "state-or-province-name" = some v → v ≠ "" →
      resolvedStateOrProvinceName o = v) ∧
    (o "state-or-province-name" = none → resolvedStateOrProvinceName o = "Wisconsin") ∧
    (∀ v, o "locality-name" = some v → v ≠ "" → resolvedLocalityName o = v) ∧
    (o "locality-name" = none → resolvedLocalityName o = "Madison") ∧
    (∀ v, o "organization-name" = some v → v ≠ "" → resolvedOrganizationName o = v) ∧
    (o "organization-name" = none → resolvedOrganizationName o = "Ionic") ∧
    (∀ v, o "common-name" = some v → v ≠ "" → resolvedCommonName o = v) ∧
    (o "common-name" = none → resolvedCommonName o = "localhost") ∧
    (∀ v, o "key-path" = some v → v ≠ "" → resolvedKeyPath w o = pathResolve1 w.cwd v) ∧
    (o "key-path" = none →
      resolvedKeyPath w o = pathResolve2 w.cwd proj ".ionic/ssl/key.pem") ∧
    (∀ v, o "cert-path" = some v → v ≠ "" → resolvedCertPath w o = pathResolve1 w.cwd v) ∧
    (o "cert-path" = none →
      resolvedCertPath w o = pathResolve2 w.cwd proj ".ionic/ssl/cert.pem") := by
  refine ⟨?_, ?_, ?_, ?_, ?_, ?_, ?_, ?_, ?_, ?_, ?_, ?_, ?_, ?_, ?_, ?_⟩
  · intro v hv hne; simp [resolvedBits, truthy, optStr, hv, hne]
  · intro hv; simp [resolvedBits, truthy, hv, DEFAULT_BITS]
  · intro v hv hne; simp [resolvedCountryName, truthy, optStr, hv, hne]
  · intro hv; simp [resolvedCountryName, truthy, hv, DEFAULT_COUNTRY_NAME]
  · intro v hv hne; simp [resolvedStateOrProvinceName, truthy, optStr, hv, hne]
  · intro hv; simp [resolvedStateOrProvinceName, truthy, hv, DEFAULT_STATE_OR_PROVINCE_NAME]
  · intro v hv hne; simp [resolvedLocalityName, truthy, optStr, hv, hne]
  · intro hv; simp [resolvedLocalityName, truthy, hv, DEFAULT_LOCALITY_NAME]
  · intro v hv hne; simp [resolvedOrganizationName, truthy, optStr, hv, hne]
  · intro hv; simp [resolvedOrganizationName, truthy, hv, DEFAULT_ORGANIZATION_NAME]
  · intro v hv hne; simp [resolvedCommonName, truthy, optStr, hv, hne]
  · intro hv; simp [resolvedCommonName, truthy, hv, DEFAULT_COMMON_NAME]
  · intro v hv hne; simp [resolvedKeyPath, truthy, optStr, hv, hne]
  · intro hv
    have habs : isAbsolute (pathResolve2 w.cwd proj ".ionic/ssl/key.pem") = true :=
      pathResolve1_abs _ _ (pathResolve1_abs _ _ hcwd)
    simp [resolvedKeyPath, truthy, hv, getDefaultKeyPath, hproj, DEFAULT_KEY_FILE,
      pathResolve1_of_abs _ _ habs]
  · intro v hv hne; simp [resolvedCertPath, truthy, optStr, hv, hne]
  · intro hv
    have habs : isAbsolute (pathResolve2 w.cwd proj ".ionic/ssl/cert.pem") = true :=
      pathResolve1_abs _ _ (pathResolve1_abs _ _ hcwd)
    simp [resolvedCertPath, truthy, hv, getDefaultCertPath, hproj, DEFAULT_CERT_FILE,
      pathResolve1_of_abs _ _ habs]

/-- Witness for C6 at a concrete world: bits supplied as 4096 resolves to
4096, and the unsupplied key path resolves to the default under the
project root. -/
theorem c6_option_resolution_witness :
    isAbsolute "/cwd" = true ∧
    (⟨"/cwd", some "/proj", fun _ => false, fun _ => true, "/tmp/t", true⟩ : World).project =
      some "/proj" ∧
    (fun k => if k = "bits" then some "4096" else none) "bits" = some "4096" ∧
    (fun k => if k = "bits" then some "4096" else none) "key-path" = (none : Option String) ∧
    resolvedBits (fun k => if k = "bits" then some "4096" else none) = "4096" ∧
    resolvedKeyPath ⟨"/cwd", some "/proj", fun _ => false, fun _ => true, "/tmp/t", true⟩
      (fun k => if k = "bits" then some "4096" else none) = "/proj/.ionic/ssl/key.pem" :=
  ⟨rfl, rfl, rfl, rfl,
   (c6_option_resolution
      ⟨"/cwd", some "/proj", fun _ => false, fun _ => true, "/tmp/t", true⟩
      (fun k => if k = "bits" then some "4096" else none) "/proj" rfl rfl).1 "4096" rfl
      (by decide),
   (c6_option_resolution
      ⟨"/cwd", some "/proj", fun _ => false, fun _ => true, "/tmp/t", true⟩
      (fun k => if k = "bits" then some "4096" else none) "/proj" rfl rfl).2.2.2.2.2.2.2.2.2.2.2.2.2.1 rfl⟩

/-- C1: when both destination files exist, an `fsUnlink` occurs only if
both overwrite prompts were answered affirmatively; when either prompt is
declined (the first, or the second after accepting the first), the command
fails with a fatal error and the trace deletes, rewrites or passes to the
subprocess neither the key file nor the cert file. -/
theorem c1_no_unlink_unless_both_confirmed (w : World) (o : OptMap)
    (hk : w.fs0 (resolvedKeyPath w o) = true) (hc : w.fs0 (resolvedCertPath w o) = true) :
    ((run w o).trace.any isUnlinkE = true →
      w.confirm (resolvedKeyPath w o) = true ∧ w.confirm (resolvedCertPath w o) = true) ∧
    ((w.confirm (resolvedKeyPath w o) && w.confirm (resolvedCertPath w o)) = false →
      (run w o).outcome.isFatal = true ∧
      (run w o).trace.all
        (fun e => !touchesFiles (resolvedKeyPath w o) (resolvedCertPath w o) e) = true) := by
  by_cases hproj : w.project = none
  · simp [run, hproj, Outcome.isFatal]
  · have hst2k := ensure_preserves
      (ensureDirectory w.fs0 (dirname (resolvedKeyPath w o))).2
      (dirname (resolvedCertPath w o)) (resolvedKeyPath w o)
      (ensure_preserves w.fs0 (dirname (resolvedKeyPath w o)) (resolvedKeyPath w o) hk)
    have hst2c := ensure_preserves
      (ensureDirectory w.fs0 (dirname (resolvedKeyPath w o))).2
      (dirname (resolvedCertPath w o)) (resolvedCertPath w o)
      (ensure_preserves w.fs0 (dirname (resolvedKeyPath w o)) (resolvedCertPath w o) hc)
    by_cases hck : w.confirm (resolvedKeyPath w o) = true <;>
      by_cases hcc : w.confirm (resolvedCertPath w o) = true <;>
      simp [run, hproj, checkExistingFile, hst2k, hst2c, hck, hcc, optTruthy,
        Outcome.isFatal, ensure_any_unlink, ensure_all_clean, touchesFiles, isUnlinkE] <;>
      constructor <;>
      (intro e he; rcases ensure_mem_shape _ _ e he with h1 | h1 <;> simp [h1])

/-- Witness for C1: both default files exist, the operator declines; the
command is fatal and the trace touches neither file. -/
theorem c1_no_unlink_unless_both_confirmed_witness :
    wDecline.fs0 (resolvedKeyPath wDecline noOpts) = true ∧
    wDecline.fs0 (resolvedCertPath wDecline noOpts) = true ∧
    (wDecline.confirm (resolvedKeyPath wDecline noOpts) &&
      wDecline.confirm (resolvedCertPath wDecline noOpts)) = false ∧
    ((run wDecline noOpts).outcome.isFatal = true ∧
      (run wDecline noOpts).trace.all
        (fun e =>
          !touchesFiles (resolvedKeyPath wDecline noOpts) (resolvedCertPath wDecline noOpts)
            e) = true) :=
  ⟨by decide, by decide, by decide,
   (c1_no_unlink_unless_both_confirmed wDecline noOpts (by decide) (by decide)).2
     (by decide)⟩

/-- C3: in every run that the operator lets proceed, `openssl` is invoked
exactly once, with exactly the argument list
`req -x509 -newkey rsa:<bits> -nodes -subj <subject> -reqexts SAN
-extensions SAN -config <temp-config-path> -days 365 -keyout <key-path>
-out <cert-path>`, in that order, built from the resolved option values. -/
theorem c3_openssl_invocation (w : World) (o : OptMap)
    (hproj : w.project ≠ none)
    (hk : w.confirm (resolvedKeyPath w o) = true)
    (hc : w.confirm (resolvedCertPath w o) = true) :
    (run w o).trace.filter isShellRunE =
      [Effect.shellRun "openssl"
        ["req", "-x509", "-newkey", "rsa:" ++ resolvedBits o, "-nodes", "-subj",
         formatSubj (resolvedCnf o), "-reqexts", "SAN", "-extensions", "SAN", "-config",
         w.tmpPath, "-days", "365", "-keyout", resolvedKeyPath w o, "-out",
         resolvedCertPath w o]] := by
  by_cases h1 : (ensureDirectory (ensureDirectory w.fs0 (dirname (resolvedKeyPath w o))).2
      (dirname (resolvedCertPath w o))).2 (resolvedKeyPath w o) = true <;>
    by_cases h2 : (ensureDirectory (ensureDirectory w.fs0 (dirname (resolvedKeyPath w o))).2
      (dirname (resolvedCertPath w o))).2 (resolvedCertPath w o) = true <;>
    by_cases h3 : w.shellOk = true <;>
    simp [run, hproj, checkExistingFile, h1, h2, h3, hk, hc, optTruthy, opensslArgs,
      resolvedCnf, ensure_filter_shell, isShellRunE, List.filter_append]

/-- Witness for C3: in a fresh project with no options, the single
invocation carries the default argument list. -/
theorem c3_openssl_invocation_witness :
    wFresh.project ≠ none ∧
    wFresh.confirm (resolvedKeyPath wFresh noOpts) = true ∧
    wFresh.confirm (resolvedCertPath wFresh noOpts) = true ∧
    (run wFresh noOpts).trace.filter isShellRunE =
      [Effect.shellRun "openssl"
        ["req", "-x509", "-newkey", "rsa:2048", "-nodes", "-subj",
         "/C=US/ST=Wisconsin/L=Madison/O=Ionic/CN=localhost", "-reqexts", "SAN",
         "-extensions", "SAN", "-config", "/tmp/ionic-ssl-cnf", "-days", "365", "-keyout",
         "/proj/.ionic/ssl/key.pem", "-out", "/proj/.ionic/ssl/cert.pem"]] :=
  ⟨by decide, by decide, by decide,
   c3_openssl_invocation wFresh noOpts (by decide) (by decide) (by decide)⟩

/-- C7: for each destination directory, when it is absent it is created
with `fsMkdirp` at mode `0o700` (recursive creation) and an informational
message naming it is emitted; when it already exists nothing is emitted;
and in every in-project run the trace begins with exactly the
`ensureDirectory` traces of the key directory and then the cert
directory. -/
theorem c7_ensure_directories (st : String → Bool) (p : String) (w : World) (o : OptMap) :
    (st p = false →
      (ensureDirectory st p).1 =
        [Effect.mkdirp p 0o700,
         Effect.logMsg ("Created " ++ p ++ " directory for you.")] ∧
      (ensureDirectory st p).2 p = true) ∧
    (st p = true → (ensureDirectory st p).1 = []) ∧
    (w.project ≠ none →
      ∃ rest,
        (run w o).trace =
          (ensureDirectory w.fs0 (dirname (resolvedKeyPath w o))).1 ++
          ((ensureDirectory (ensureDirectory w.fs0 (dirname (resolvedKeyPath w o))).2
              (dirname (resolvedCertPath w o))).1 ++ rest)) := by
  refine ⟨?_, ?_, ?_⟩
  · intro h
    unfold ensureDirectory
    simp [h]
  · intro h
    unfold ensureDirectory
    simp [h]
  · intro hproj
    simp only [run, if_neg hproj, List.append_assoc]
    split
    · exact ⟨_, rfl⟩
    · split
      · exact ⟨_, rfl⟩
      · split <;> exact ⟨_, rfl⟩

/-- Witness for C7: an absent directory is created at mode `0o700` with a
message, and the fresh-project run opens with the two directory steps. -/
theorem c7_ensure_directories_witness :
    ((fun _ => false) : String → Bool) "/d" = false ∧
    (ensureDirectory (fun _ => false) "/d").1 =
      [Effect.mkdirp "/d" 0o700, Effect.logMsg "Created /d directory for you."] ∧
    (ensureDirectory (fun _ => false) "/d").2 "/d" = true ∧
    wFresh.project ≠ none ∧
    (∃ rest,
      (run wFresh noOpts).trace =
        (ensureDirectory wFresh.fs0 (dirname (resolvedKeyPath wFresh noOpts))).1 ++
        ((ensureDirectory (ensureDirectory wFresh.fs0
              (dirname (resolvedKeyPath wFresh noOpts))).2
            (dirname (resolvedCertPath wFresh noOpts))).1 ++ rest)) :=
  ⟨rfl,
   ((c7_ensure_directories (fun _ => false) "/d" wFresh noOpts).1 rfl).1,
   ((c7_ensure_directories (fun _ => false) "/d" wFresh noOpts).1 rfl).2,
   by decide,
   (c7_ensure_directories (fun _ => false) "/d" wFresh noOpts).2.2 (by decide)⟩

/-- C8: on every execution path the temporary configuration file is never
deleted: after the `fsWriteFile` that creates it no `fsUnlink` of any path
ever occurs, and (for a temp path distinct from the two destination
paths, as a fresh `tmpfilepath` result is) no `fsUnlink` of the temp path
appears anywhere in the trace. -/
theorem c8_no_temp_cleanup (w : World) (o : OptMap)
    (hkey : w.tmpPath ≠ resolvedKeyPath w o) (hcert : w.tmpPath ≠ resolvedCertPath w o) :
    (afterFirstWrite (run w o).trace).all (fun e => !isUnlinkE e) = true ∧
    Effect.unlink w.tmpPath ∉ (run w o).trace := by
  by_cases hproj : w.project = none
  · simp [run, hproj, afterFirstWrite]
  · by_cases h1 : (ensureDirectory (ensureDirectory w.fs0 (dirname (resolvedKeyPath w o))).2
        (dirname (resolvedCertPath w o))).2 (resolvedKeyPath w o) = true <;>
      by_cases hck : w.confirm (resolvedKeyPath w o) = true <;>
      by_cases h2 : (ensureDirectory (ensureDirectory w.fs0 (dirname (resolvedKeyPath w o))).2
        (dirname (resolvedCertPath w o))).2 (resolvedCertPath w o) = true <;>
      by_cases hcc : w.confirm (resolvedCertPath w o) = true <;>
      by_cases h3 : w.shellOk = true <;>
      simp [run, hproj, checkExistingFile, h1, h2, h3, hck, hcc, optTruthy, afterFirstWrite,
        dropWhile_nonwrite_ensure, List.dropWhile_cons, isWriteE_prompt, isWriteE_unlink,
        isWriteE_write, isUnlinkE_shell, isUnlinkE_logNl, isUnlinkE_logRawmsg,
        isUnlinkE_logOk, isUnlinkE_prompt, ensure_unlink_not_mem, hkey, hcert]

/-- Witness for C8: in the fresh-project run with a distinct temp path, no
unlink follows the config write and the temp path is never unlinked. -/
theorem c8_no_temp_cleanup_witness :
    wFresh.tmpPath ≠ resolvedKeyPath wFresh noOpts ∧
    wFresh.tmpPath ≠ resolvedCertPath wFresh noOpts ∧
    ((afterFirstWrite (run wFresh noOpts).trace).all (fun e => !isUnlinkE e) = true ∧
      Effect.unlink wFresh.tmpPath ∉ (run wFresh noOpts).trace) :=
  ⟨by decide, by decide, c8_no_temp_cleanup wFresh noOpts (by decide) (by decide)⟩

end IonicSSL
